import Mathlib

/-!
Shallow embedding of the FHIR document-mapping service
(`document_mapper.py`, `terminology.py`) in Lean 4.

Conventions of the embedding:
* Python strings are Lean `String`s; `None` is `Option.none`.
* Python truthiness of a string (`if s:`) is the test `s ≠ ""`
  (on `Option String`, `none` and `some ""` are both falsy).
* The external HTTP searches of the terminology resolver are injected as
  functions `String → Option (String × String)` returning the extracted
  `(code, display)` pair of the first match, or `none` for "no match,
  timeout, network or parse failure" (the code catches every exception of
  a search and treats it as no match).
* `uuid.uuid4()` and `datetime.utcnow()` are external randomness / clock
  reads; they are injected as parameters (`fresh`, `gen`, `now`).
-/

namespace Harmon

/-- Python `str.strip()`: drop leading and trailing whitespace. -/
def pyStripChars (cs : List Char) : List Char :=
  ((cs.dropWhile Char.isWhitespace).reverse.dropWhile Char.isWhitespace).reverse

/-- Python `str.strip()` on `String`. -/
def pyStrip (s : String) : String := String.mk (pyStripChars s.data)

/-- Helper for `pySplitWs`: accumulate the current word (reversed). -/
def pySplitWsAux : List Char → List Char → List String
  | [], acc => if acc = [] then [] else [String.mk acc.reverse]
  | c :: rest, acc =>
    if c.isWhitespace then
      if acc = [] then pySplitWsAux rest []
      else String.mk acc.reverse :: pySplitWsAux rest []
    else pySplitWsAux rest (c :: acc)

/-- Python `str.split()` with no argument: split on whitespace runs, dropping
empty pieces. -/
def pySplitWs (s : String) : List String :=
  pySplitWsAux s.data []

/-- Python `a or b` for two optional strings (`""` and `None` are falsy),
as in `pii.get('ID') or pii.get('id')`. -/
def pyOrStr (a b : Option String) : Option String :=
  match a with
  | some s => if s ≠ "" then some s else b
  | none => b

/-- Python truthiness filter: `some s` survives only when `s` is nonempty. -/
def pyTruthy (o : Option String) : Option String :=
  match o with
  | some s => if s ≠ "" then some s else none
  | none => none

/-- `str(patient_id).replace('_', '-')` from `DocumentMapper._build_patient`:
the only sanitization the code performs on a supplied identifier. -/
def sanitizeId (s : String) : String :=
  String.mk (s.data.map (fun c => if c = '_' then '-' else c))

/-- Python `str.lower()` (ASCII case folding suffices here). -/
def strLower (s : String) : String :=
  String.mk (s.data.map Char.toLower)

/-- The patient id chosen by `DocumentMapper._build_patient`:
`pii.get('ID') or pii.get('id')`, sanitized by `sanitizeId` when truthy,
otherwise the injected `uuid.uuid4()` value `fresh`. -/
def computePatientId (idRaw : Option String) (fresh : String) : String :=
  match idRaw with
  | some s => if s ≠ "" then sanitizeId s else fresh
  | none => fresh

/-- One character of the FHIR id grammar `[A-Za-z0-9\-.]`. -/
def fhirIdChar (c : Char) : Bool :=
  c.isAlpha || c.isDigit || c = '-' || c = '.'

/-- The FHIR id pattern `[A-Za-z0-9\-.]{1,64}` of the spec: nonempty,
at most 64 characters, all from the allowed class. -/
def fhirIdOk (s : String) : Bool :=
  decide (1 ≤ s.data.length) && decide (s.data.length ≤ 64) && s.data.all fhirIdChar

/-- Gender normalization of `DocumentMapper._build_patient`, applied to the
already-resolved `gender_raw = pii.get('Gender') or pii.get('gender')`.
When `gender_raw` is falsy the code skips the whole block and the patient
carries no gender field at all. -/
def buildGender (gender_raw : Option String) : Option String :=
  match gender_raw with
  | none => none
  | some s =>
    if s ≠ "" then
      let g := pyStrip (strLower s)
      if g = "m" || g = "male" || g = "man" then some "male"
      else if g = "f" || g = "female" || g = "woman" then some "female"
      else if g = "o" || g = "other" then some "other"
      else some "unknown"
    else none

/-- The four mapper variants returned by the factory. -/
inductive MapperKind where
  | medicalReport
  | labReport
  | dischargeSummary
  | admissionSlip
deriving DecidableEq

/-- The `mappers` dict lookup of `get_document_mapper`. -/
def mappersLookup (document_type : String) : Option MapperKind :=
  if document_type = "Medical Report" then some .medicalReport
  else if document_type = "Lab Report" then some .labReport
  else if document_type = "Discharge Summary" then some .dischargeSummary
  else if document_type = "Admission Slip" then some .admissionSlip
  else none

/-- `get_document_mapper`: returns the mapper class for the four supported
type strings and raises a `ValueError` naming the unsupported type and the
supported ones otherwise. -/
def get_document_mapper (document_type : String) : Except String MapperKind :=
  match mappersLookup document_type with
  | some k => Except.ok k
  | none => Except.error
      ("Unsupported document type: " ++ document_type ++
       ". Supported types: Medical Report, Lab Report, Discharge Summary, Admission Slip")

/-! ## Terminology resolver (`terminology.py`) -/

/-- One element of a FHIR `coding` list. -/
structure Coding where
  system : String
  code : String
  display : String
deriving DecidableEq

/-- A (partial) FHIR CodeableConcept dict as produced by the resolver:
either `{coding, text}` (resolved) or `{text}` only (fallback, `coding`
key absent, modelled as `none`). -/
structure Concept where
  coding : Option (List Coding) := none
  text : String := ""
deriving DecidableEq

/-- Code system URI used by `_search_icd10`. -/
def icd10Sys : String := "http://hl7.org/fhir/sid/icd-10-cm"

/-- Code system URI used by `get_loinc_code`. -/
def loincSys : String := "http://loinc.org"

/-- Code system URI used by `get_rxnorm_code`. -/
def rxnormSys : String := "http://www.nlm.nih.gov/research/umls/rxnorm"

/-- An injected external search: the `(code, display)` of the first match,
or `none` for no match / any caught network or parse failure. -/
abbrev Api := String → Option (String × String)

/-- `_search_icd10`: queries the ICD-10 endpoint and, on a match, wraps it
as a concept whose `text` is the term that was searched. -/
def searchIcd10 (api : Api) (term : String) : Option Concept :=
  (api term).map fun p =>
    { coding := some [⟨icd10Sys, p.1, p.2⟩], text := term }

/-- The first element of maximal length, as Python `max(words, key=len)`
(ties keep the earliest element). -/
def pyMaxLen (words : List String) : String :=
  words.foldl (fun best w => if w.length > best.length then w else best)
    (words.headD "")

/-- The last word, `words[-1]` (only evaluated when `words` is nonempty). -/
def lastWordD (words : List String) : String := words.getLastD ""

/-- `get_condition_code` (uncached body): the three-strategy ICD-10
cascade. Strategy 1 searches the trimmed term; strategy 2 the last word of
a multi-word term when it has more than 2 characters; strategy 3 the
longest word when it has more than 2 characters and differs from the last
word; otherwise the fallback `{text: trimmed term}`. -/
def get_condition_code (api : Api) (text : String) : Concept :=
  let clean_text := pyStrip text
  match searchIcd10 api clean_text with
  | some r => r
  | none =>
    let words := pySplitWs clean_text
    let step2 : Option Concept :=
      if words.length > 1 then
        let last_word := lastWordD words
        if last_word.length > 2 then searchIcd10 api last_word else none
      else none
    match step2 with
    | some r => r
    | none =>
      let step3 : Option Concept :=
        if words.length > 1 then
          let longest_word := pyMaxLen words
          if longest_word.length > 2 && longest_word ≠ lastWordD words then
            searchIcd10 api longest_word
          else none
        else none
      match step3 with
      | some r => r
      | none => { text := clean_text }

/-- Strategy 2 of the cascade, named for the statements below (identical to
the inline `step2` of `get_condition_code`). -/
def condStep2 (api : Api) (text : String) : Option Concept :=
  if (pySplitWs (pyStrip text)).length > 1 then
    if (lastWordD (pySplitWs (pyStrip text))).length > 2 then
      searchIcd10 api (lastWordD (pySplitWs (pyStrip text)))
    else none
  else none

/-- Strategy 3 of the cascade, named for the statements below (identical to
the inline `step3` of `get_condition_code`). -/
def condStep3 (api : Api) (text : String) : Option Concept :=
  if (pySplitWs (pyStrip text)).length > 1 then
    if (pyMaxLen (pySplitWs (pyStrip text))).length > 2 &&
        pyMaxLen (pySplitWs (pyStrip text)) ≠ lastWordD (pySplitWs (pyStrip text)) then
      searchIcd10 api (pyMaxLen (pySplitWs (pyStrip text)))
    else none
  else none

/-- `get_loinc_code` (uncached body): empty input gives `{text: ""}`;
otherwise a single exact search for the trimmed term, wrapped with the
LOINC system URI, falling back to `{text: trimmed term}`. The JSON shape
detection of the response is abstracted into the injected `api` outcome. -/
def get_loinc_code (api : Api) (text : String) : Concept :=
  if text = "" then { text := "" }
  else
    let clean_text := pyStrip text
    match api clean_text with
    | some p => { coding := some [⟨loincSys, p.1, p.2⟩], text := clean_text }
    | none => { text := clean_text }

/-- `get_rxnorm_code` (uncached body): empty input gives `{text: ""}`;
otherwise a single exact search for the trimmed term, wrapped with the
RxNorm system URI, falling back to `{text: trimmed term}`. -/
def get_rxnorm_code (api : Api) (text : String) : Concept :=
  if text = "" then { text := "" }
  else
    let clean_text := pyStrip text
    match api clean_text with
    | some p => { coding := some [⟨rxnormSys, p.1, p.2⟩], text := clean_text }
    | none => { text := clean_text }

/-! ### The shared cache

`terminology.py` declares one module-level `terminology_cache = TTLCache(...)`
and decorates all three resolver functions with
`@cached(cache=terminology_cache)`.  The default key function of
`cachetools.cached` is `cachetools.keys.hashkey(*args)`, which hashes the
argument tuple only — the decorated function`s identity is NOT part of the
key.  The cache is therefore keyed by the bare term string, shared across
the three code systems.  (TTL expiry and the capacity bound are timing
concerns not modelled; entries below are simply present once written.) -/

/-- The shared `terminology_cache`, keyed by the bare term string. -/
abbrev TermCache := List (String × Concept)

/-- Cache lookup (first binding wins, as a dict lookup). -/
def cacheLookup (cache : TermCache) (t : String) : Option Concept :=
  match cache.find? (fun p => p.1 = t) with
  | some p => some p.2
  | none => none

/-- The `@cached(cache=terminology_cache)` wrapper: on a hit the stored
value is returned and the wrapped function is not invoked; on a miss the
wrapped function runs and its result is stored under the bare term. -/
def cachedCall (f : String → Concept) (cache : TermCache) (t : String) :
    Concept × TermCache :=
  match cacheLookup cache t with
  | some v => (v, cache)
  | none => let v := f t; (v, (t, v) :: cache)

/-- `get_condition_code` as exported: the cached wrapper around its body. -/
def get_condition_code_cached (api : Api) (cache : TermCache) (t : String) :
    Concept × TermCache :=
  cachedCall (get_condition_code api) cache t

/-- `get_loinc_code` as exported: the cached wrapper around its body,
sharing the same `terminology_cache`. -/
def get_loinc_code_cached (api : Api) (cache : TermCache) (t : String) :
    Concept × TermCache :=
  cachedCall (get_loinc_code api) cache t

/-- `get_rxnorm_code` as exported: the cached wrapper around its body,
sharing the same `terminology_cache`. -/
def get_rxnorm_code_cached (api : Api) (cache : TermCache) (t : String) :
    Concept × TermCache :=
  cachedCall (get_rxnorm_code api) cache t

/-! ## Date normalizer (`DocumentMapper._normalize_date`)

`datetime.strptime` is modelled directive by directive after CPython:
`%Y` is exactly four digits, `%d` is the regex `(3[01]|[12]\d|0[1-9]|[1-9])`,
`%m` is `(1[0-2]|0[1-9]|[1-9])`, `%B`/`%b` are the (case-insensitive) full /
abbreviated month names, a literal space matches a nonempty whitespace run,
other literals match exactly, the whole input must be consumed, and the
final `datetime` construction rejects out-of-range days and year 0.  The
two-digit branches of `%d`/`%m` are never followed by a digit directive in
the formats used here, so regex backtracking from the two-digit to the
one-digit alternative can never change the outcome and is not modelled. -/

/-- A calendar date as held by a parsed `datetime`. -/
structure SimpleDate where
  year : Nat
  month : Nat
  day : Nat
deriving DecidableEq

/-- Gregorian leap year. -/
def isLeapYear (y : Nat) : Bool :=
  (y % 4 = 0 && y % 100 ≠ 0) || y % 400 = 0

/-- Days in a month of a given year. -/
def daysInMonth (y m : Nat) : Nat :=
  if m = 2 then (if isLeapYear y then 29 else 28)
  else if m = 4 || m = 6 || m = 9 || m = 11 then 30
  else 31

/-- The check performed by the `datetime` constructor (with the regex
bounds folded in): year in `1..9999`, month in `1..12`, day within the
month. -/
def validDate (y m d : Nat) : Bool :=
  decide (1 ≤ y) && decide (y ≤ 9999) && decide (1 ≤ m) && decide (m ≤ 12) &&
  decide (1 ≤ d) && decide (d ≤ daysInMonth y m)

/-- Numeric value of a decimal digit character. -/
def digitVal (c : Char) : Nat := c.toNat - '0'.toNat

/-- `%d`: two digits with value `1..31`, else one digit `1..9`. -/
def parseDirD : List Char → Option (Nat × List Char)
  | c1 :: c2 :: rest =>
    if c1.isDigit && c2.isDigit then
      let n := digitVal c1 * 10 + digitVal c2
      if 1 ≤ n && n ≤ 31 then some (n, rest)
      else if 1 ≤ digitVal c1 then some (digitVal c1, c2 :: rest)
      else none
    else if c1.isDigit && 1 ≤ digitVal c1 then some (digitVal c1, c2 :: rest)
    else none
  | [c1] => if c1.isDigit && 1 ≤ digitVal c1 then some (digitVal c1, []) else none
  | [] => none

/-- `%m`: two digits with value `1..12`, else one digit `1..9`. -/
def parseDirM : List Char → Option (Nat × List Char)
  | c1 :: c2 :: rest =>
    if c1.isDigit && c2.isDigit then
      let n := digitVal c1 * 10 + digitVal c2
      if 1 ≤ n && n ≤ 12 then some (n, rest)
      else if 1 ≤ digitVal c1 then some (digitVal c1, c2 :: rest)
      else none
    else if c1.isDigit && 1 ≤ digitVal c1 then some (digitVal c1, c2 :: rest)
    else none
  | [c1] => if c1.isDigit && 1 ≤ digitVal c1 then some (digitVal c1, []) else none
  | [] => none

/-- `%Y`: exactly four digits. -/
def parseDirY : List Char → Option (Nat × List Char)
  | c1 :: c2 :: c3 :: c4 :: rest =>
    if c1.isDigit && c2.isDigit && c3.isDigit && c4.isDigit then
      some (((digitVal c1 * 10 + digitVal c2) * 10 + digitVal c3) * 10 + digitVal c4,
            rest)
    else none
  | _ => none

/-- A literal format character: must match exactly. -/
def parseLit (c : Char) : List Char → Option (List Char)
  | x :: rest => if x = c then some rest else none
  | [] => none

/-- A literal space in the format: matches a nonempty whitespace run. -/
def parseWs : List Char → Option (List Char)
  | x :: rest =>
    if x.isWhitespace then some (rest.dropWhile Char.isWhitespace) else none
  | [] => none

/-- Full month names for `%B` (lowercase; matching is case-insensitive). -/
def monthNamesFull : List (String × Nat) :=
  [("january", 1), ("february", 2), ("march", 3), ("april", 4), ("may", 5),
   ("june", 6), ("july", 7), ("august", 8), ("september", 9), ("october", 10),
   ("november", 11), ("december", 12)]

/-- Abbreviated month names for `%b`. -/
def monthNamesAbbr : List (String × Nat) :=
  [("jan", 1), ("feb", 2), ("mar", 3), ("apr", 4), ("may", 5), ("jun", 6),
   ("jul", 7), ("aug", 8), ("sep", 9), ("oct", 10), ("nov", 11), ("dec", 12)]

/-- Match a month name (case-insensitively) at the head of the input. -/
def parseMonthName (names : List (String × Nat)) (cs : List Char) :
    Option (Nat × List Char) :=
  names.findSome? fun p =>
    let n := p.1.data
    if (cs.take n.length).map Char.toLower = n then some (p.2, cs.drop n.length)
    else none

/-- End of a format: the whole input must be consumed and the date valid. -/
def finishDate (y m d : Nat) (rest : List Char) : Option SimpleDate :=
  if rest = [] && validDate y m d then some ⟨y, m, d⟩ else none

/-- Format `%Y-%m-%d`. -/
def fmtYmdDash (cs : List Char) : Option SimpleDate := do
  let (y, r1) ← parseDirY cs
  let r2 ← parseLit '-' r1
  let (m, r3) ← parseDirM r2
  let r4 ← parseLit '-' r3
  let (d, r5) ← parseDirD r4
  finishDate y m d r5

/-- Format `%d/%m/%Y`. -/
def fmtDmySlash (cs : List Char) : Option SimpleDate := do
  let (d, r1) ← parseDirD cs
  let r2 ← parseLit '/' r1
  let (m, r3) ← parseDirM r2
  let r4 ← parseLit '/' r3
  let (y, r5) ← parseDirY r4
  finishDate y m d r5

/-- Format `%m/%d/%Y`. -/
def fmtMdySlash (cs : List Char) : Option SimpleDate := do
  let (m, r1) ← parseDirM cs
  let r2 ← parseLit '/' r1
  let (d, r3) ← parseDirD r2
  let r4 ← parseLit '/' r3
  let (y, r5) ← parseDirY r4
  finishDate y m d r5

/-- Format `%d-%m-%Y`. -/
def fmtDmyDash (cs : List Char) : Option SimpleDate := do
  let (d, r1) ← parseDirD cs
  let r2 ← parseLit '-' r1
  let (m, r3) ← parseDirM r2
  let r4 ← parseLit '-' r3
  let (y, r5) ← parseDirY r4
  finishDate y m d r5

/-- Format `%B %d, %Y` (e.g. `December 27, 2025`). -/
def fmtMonthDCommaY (cs : List Char) : Option SimpleDate := do
  let (m, r1) ← parseMonthName monthNamesFull cs
  let r2 ← parseWs r1
  let (d, r3) ← parseDirD r2
  let r4 ← parseLit ',' r3
  let r5 ← parseWs r4
  let (y, r6) ← parseDirY r5
  finishDate y m d r6

/-- Format `%B %d %Y` (e.g. `December 27 2025`). -/
def fmtMonthDY (cs : List Char) : Option SimpleDate := do
  let (m, r1) ← parseMonthName monthNamesFull cs
  let r2 ← parseWs r1
  let (d, r3) ← parseDirD r2
  let r4 ← parseWs r3
  let (y, r5) ← parseDirY r4
  finishDate y m d r5

/-- Format `%b %d, %Y` (e.g. `Dec 27, 2025`). -/
def fmtAbbrDCommaY (cs : List Char) : Option SimpleDate := do
  let (m, r1) ← parseMonthName monthNamesAbbr cs
  let r2 ← parseWs r1
  let (d, r3) ← parseDirD r2
  let r4 ← parseLit ',' r3
  let r5 ← parseWs r4
  let (y, r6) ← parseDirY r5
  finishDate y m d r6

/-- Format `%d %B %Y` (e.g. `27 December 2025`). -/
def fmtDMonthY (cs : List Char) : Option SimpleDate := do
  let (d, r1) ← parseDirD cs
  let r2 ← parseWs r1
  let (m, r3) ← parseMonthName monthNamesFull r2
  let r4 ← parseWs r3
  let (y, r5) ← parseDirY r4
  finishDate y m d r5

/-- Format `%Y/%m/%d`. -/
def fmtYmdSlash (cs : List Char) : Option SimpleDate := do
  let (y, r1) ← parseDirY cs
  let r2 ← parseLit '/' r1
  let (m, r3) ← parseDirM r2
  let r4 ← parseLit '/' r3
  let (d, r5) ← parseDirD r4
  finishDate y m d r5

/-- `formats_to_try`, in the exact order of the source. -/
def formatsToTry : List (List Char → Option SimpleDate) :=
  [fmtYmdDash, fmtDmySlash, fmtMdySlash, fmtDmyDash, fmtMonthDCommaY,
   fmtMonthDY, fmtAbbrDCommaY, fmtDMonthY, fmtYmdSlash]

/-- The parsing loop: first format that parses successfully wins. -/
def firstParse (cs : List Char) : Option SimpleDate :=
  formatsToTry.findSome? fun f => f cs

/-- Zero-pad a number to a width, as `strftime`. -/
def padNum (w n : Nat) : String :=
  let s := toString n
  String.mk (List.replicate (w - s.length) '0') ++ s

/-- `dt.strftime('%Y-%m-%d')`. -/
def renderIso (d : SimpleDate) : String :=
  padNum 4 d.year ++ "-" ++ padNum 2 d.month ++ "-" ++ padNum 2 d.day

/-- Python `.replace(" ,", ",")`, non-overlapping, left to right. -/
def replaceSpaceComma : List Char → List Char
  | ' ' :: ',' :: rest => ',' :: replaceSpaceComma rest
  | c :: rest => c :: replaceSpaceComma rest
  | [] => []

/-- Python `.replace(", ", ", ")` — replaces every occurrence with itself,
an identity kept for fidelity to the source. -/
def replaceCommaSpace : List Char → List Char
  | ',' :: ' ' :: rest => ',' :: ' ' :: replaceCommaSpace rest
  | c :: rest => c :: replaceCommaSpace rest
  | [] => []

/-- `cleaned_date = date_str.strip().replace(" ,", ",").replace(", ", ", ")`. -/
def cleanDate (cs : List Char) : List Char :=
  replaceCommaSpace (replaceSpaceComma (pyStripChars cs))

/-- The pre-check of the fast path:
`len(date_str) >= 10 and date_str[4] == '-' and date_str[7] == '-'`. -/
def isoShape (cs : List Char) : Bool :=
  decide (cs.length ≥ 10) && cs.getD 4 ' ' = '-' && cs.getD 7 ' ' = '-'

/-- `DocumentMapper._normalize_date`.  Empty input returns `None`; an input
passing `isoShape` is passed through (`split('T')[0]` when it contains a
`'T'`, else truncated to its first 10 characters); otherwise the cleaned
string is tried against `formatsToTry` in order and the first success is
re-rendered as `YYYY-MM-DD`.  When nothing parses the source returns `None`
on both the `'TKN' in date_str` branch and the final branch, so both
collapse to `none` here. -/
def normalize_date (date_str : String) : Option String :=
  let cs := date_str.data
  if cs = [] then none
  else if isoShape cs then
    if cs.contains 'T' then some (String.mk (cs.takeWhile (fun c => c ≠ 'T')))
    else some (String.mk (cs.take 10))
  else
    match firstParse (cleanDate cs) with
    | some d => some (renderIso d)
    | none => none

/-! ## Resource builders (`DocumentMapper._build_*`)

`uuid.uuid4()` of each builder is injected as the `rid` argument.  The
builders call the resolver bodies directly; the shared cache only changes
which external calls are made (and, through the shared-key collision, which
concept a term resolves to), never the fields modelled by the claims about
the mappers. -/

/-- A FHIR HumanName as built by `_build_patient`. -/
structure HumanNameR where
  given : Option (List String) := none
  family : Option String := none
  text : Option String := none
deriving DecidableEq

/-- A FHIR Patient as built by `_build_patient`. -/
structure PatientR where
  id : String
  name : Option HumanNameR := none
  birthDate : Option String := none
  gender : Option String := none
deriving DecidableEq

/-- A FHIR Condition as built by `_build_condition` (the clinical and
verification statuses are the fixed codes the source always writes). -/
structure ConditionR where
  id : String
  subject : String
  code : Concept
  clinicalStatusCode : String := "active"
  verificationStatusCode : String := "confirmed"
  recordedDate : Option String := none
deriving DecidableEq

/-- A FHIR MedicationStatement as built by `_build_medication_statement`. -/
structure MedicationStatementR where
  id : String
  subject : String
  status : String := "active"
  medicationConcept : Concept
  dosage : Option String := none
deriving DecidableEq

/-- A FHIR Procedure as built by `_build_procedure`. -/
structure ProcedureR where
  id : String
  subject : String
  status : String := "completed"
  codeText : String
  performedDateTime : Option String := none
deriving DecidableEq

/-- A FHIR Quantity: the numeric literal (as accepted by `float`) plus an
optional unit. -/
structure QuantityR where
  value : String
  unit : Option String := none
deriving DecidableEq

/-- A FHIR Observation as built by `_build_observation`. -/
structure ObservationR where
  id : String
  subject : String
  status : String := "final"
  code : Concept
  valueQuantity : Option QuantityR := none
  valueString : Option String := none
  referenceRange : Option String := none
  effectiveDateTime : Option String := none
deriving DecidableEq

/-- A FHIR Encounter as built by `_build_encounter` (a period key written
with a `None` value is collapsed with the absent key). -/
structure EncounterR where
  id : String
  subject : String
  status : String := "finished"
  classCode : String := "IMP"
  periodStart : Option String := none
  periodEnd : Option String := none
  reasons : Option (List Concept) := none
  serviceType : Option String := none
  dischargeDisposition : Option String := none
deriving DecidableEq

/-- The PII block: both spellings of each key the source reads. -/
structure PiiData where
  ID : Option String := none
  id : Option String := none
  Name : Option String := none
  name : Option String := none
  DOB : Option String := none
  dob : Option String := none
  Gender : Option String := none
  gender : Option String := none
  Date : Option String := none
  Admission_Date : Option String := none
  Discharge_Date : Option String := none
deriving DecidableEq

/-- `_build_patient`: id from `computePatientId`, name decomposition on
whitespace, birth date through `_normalize_date`, gender through the
synonym table. -/
def build_patient (fresh : String) (pii : PiiData) : PatientR :=
  let pid := computePatientId (pyOrStr pii.ID pii.id) fresh
  let nameR : Option HumanNameR :=
    match pyTruthy (pyOrStr pii.Name pii.name) with
    | some name_str =>
      let name_parts := pySplitWs (pyStrip name_str)
      if name_parts.length ≥ 2 then
        some { given := some name_parts.dropLast, family := some (lastWordD name_parts) }
      else if name_parts.length = 1 then
        some { family := some (name_parts.headD "") }
      else
        some { text := some name_str }
    | none => none
  let birth : Option String :=
    match pyTruthy (pyOrStr pii.DOB pii.dob) with
    | some dob => normalize_date dob
    | none => none
  { id := pid, name := nameR, birthDate := birth,
    gender := buildGender (pyOrStr pii.Gender pii.gender) }

/-- `_build_condition` (the `try` around the resolver is dead in this
model: the resolver never raises). -/
def build_condition (rid : String) (api : Api) (pid : String) (text : String)
    (date : Option String) : ConditionR :=
  { id := rid, subject := "Patient/" ++ pid,
    code := get_condition_code api text,
    recordedDate :=
      match pyTruthy date with
      | some d => normalize_date d
      | none => none }

/-- `_build_medication_statement`. -/
def build_medication_statement (rid : String) (api : Api) (pid : String)
    (medication : String) (dosage_text : Option String) : MedicationStatementR :=
  { id := rid, subject := "Patient/" ++ pid,
    medicationConcept := get_rxnorm_code api medication,
    dosage := pyTruthy dosage_text }

/-- `_build_procedure` (no code-system lookup: text only). -/
def build_procedure (rid : String) (pid : String) (procedure_name : String)
    (date : Option String) : ProcedureR :=
  { id := rid, subject := "Patient/" ++ pid, codeText := procedure_name,
    performedDateTime :=
      match pyTruthy date with
      | some d => normalize_date d
      | none => none }

/-- Whether `float(s)` succeeds in Python (sign, digits with optional
point, optional exponent; the `inf`, `nan` and underscore forms are not
used by this service and are not modelled). -/
def pyFloatable (s : String) : Bool :=
  let cs := pyStripChars s.data
  let cs := match cs with
    | '+' :: r => r
    | '-' :: r => r
    | r => r
  let ip := cs.takeWhile Char.isDigit
  let rest := cs.dropWhile Char.isDigit
  let mantOk :=
    match rest with
    | '.' :: t => decide (ip.length + (t.takeWhile Char.isDigit).length > 0)
    | _ => decide (ip.length > 0)
  let afterMant :=
    match rest with
    | '.' :: t => t.dropWhile Char.isDigit
    | _ => rest
  let expOk :=
    match afterMant with
    | [] => true
    | 'e' :: t => expDigits t
    | 'E' :: t => expDigits t
    | _ => false
  mantOk && expOk
where
  expDigits (t : List Char) : Bool :=
    let t := match t with
      | '+' :: r => r
      | '-' :: r => r
      | r => r
    decide (t ≠ []) && t.all Char.isDigit

/-- `_build_observation`: numeric values become a quantity, other values a
string; the effective date defaults to the injected clock value `now`. -/
def build_observation (rid : String) (api : Api) (pid : String)
    (test_name : String) (value : Option String) (unit : Option String)
    (reference_range : Option String) (date : Option String) (now : String) :
    ObservationR :=
  let base : ObservationR :=
    { id := rid, subject := "Patient/" ++ pid, code := get_loinc_code api test_name }
  let withVal :=
    match value with
    | some v =>
      if pyFloatable v then
        { base with valueQuantity := some { value := v, unit := pyTruthy unit } }
      else
        { base with valueString := some v }
    | none => base
  { withVal with
    referenceRange := pyTruthy reference_range,
    effectiveDateTime :=
      match pyTruthy date with
      | some d => normalize_date d
      | none => some now }

/-- Python `s.split(',')`: every comma separates, empty pieces kept. -/
def splitCommaAux : List Char → List Char → List String
  | [], acc => [String.mk acc.reverse]
  | ',' :: rest, acc => String.mk acc.reverse :: splitCommaAux rest []
  | c :: rest, acc => splitCommaAux rest (c :: acc)

/-- Python `s.split(',')` on a `String`. -/
def pySplitComma (s : String) : List String := splitCommaAux s.data []

/-- `sep.join(l)`. -/
def joinSep (sep : String) : List String → String
  | [] => ""
  | [x] => x
  | x :: y :: xs => x ++ sep ++ joinSep sep (y :: xs)

/-- `_build_encounter`. -/
def build_encounter (rid : String) (api : Api) (pid : String)
    (admission_date discharge_date admission_reason department outcome :
      Option String)
    (instructions : Option (List String)) : EncounterR :=
  let reasonsList : Option (List Concept) :=
    match pyTruthy admission_reason with
    | some r =>
      some ((((pySplitComma r).map pyStrip).filter (fun x => x ≠ "")).map
        (get_condition_code api))
    | none => none
  let dispParts : List String :=
    (match pyTruthy outcome with
     | some o => ["Outcome: " ++ o]
     | none => []) ++
    (match instructions with
     | some l => if l ≠ [] then ["Instructions: " ++ joinSep "; " l] else []
     | none => [])
  { id := rid, subject := "Patient/" ++ pid,
    periodStart :=
      match pyTruthy admission_date with
      | some a => normalize_date a
      | none => none,
    periodEnd :=
      match pyTruthy discharge_date with
      | some d => normalize_date d
      | none => none,
    reasons := reasonsList,
    serviceType := pyTruthy department,
    dischargeDisposition :=
      if dispParts ≠ [] then some (joinSep " | " dispParts) else none }

/-! ## Bundle assembly and the four mappers -/

/-- The closed set of resource kinds a mapper can emit. -/
inductive Resource where
  | patient (p : PatientR)
  | condition (c : ConditionR)
  | medicationStatement (m : MedicationStatementR)
  | procedureRec (p : ProcedureR)
  | observation (o : ObservationR)
  | encounter (e : EncounterR)
deriving DecidableEq

/-- `type(resource).__name__`, used for the request url. -/
def Resource.className : Resource → String
  | .patient _ => "Patient"
  | .condition _ => "Condition"
  | .medicationStatement _ => "MedicationStatement"
  | .procedureRec _ => "Procedure"
  | .observation _ => "Observation"
  | .encounter _ => "Encounter"

/-- The subject reference a resource carries (`none` for the Patient). -/
def Resource.subjectRef : Resource → Option String
  | .patient _ => none
  | .condition c => some c.subject
  | .medicationStatement m => some m.subject
  | .procedureRec p => some p.subject
  | .observation o => some o.subject
  | .encounter e => some e.subject

/-- One bundle entry: the resource plus its `{'method': 'POST', 'url': ...}`
request. -/
structure BundleEntryR where
  resource : Resource
  requestMethod : String
  requestUrl : String
deriving DecidableEq

/-- A FHIR Bundle envelope. -/
structure BundleR where
  type : String
  entry : List BundleEntryR
deriving DecidableEq

/-- `DocumentMapper._build_bundle`: a transaction bundle keeping the given
resource order, each entry posted under its class name. -/
def build_bundle (resources : List Resource) : BundleR :=
  { type := "transaction",
    entry := resources.map fun r =>
      { resource := r, requestMethod := "POST", requestUrl := r.className } }

/-- The Medical Report input schema. -/
structure MedicalReportData where
  PII : PiiData := {}
  Disease_disorder : List String := []
  Medication : List String := []
  Dosage : List String := []
  Procedure : List String := []
deriving DecidableEq

/-- One entry of `Lab_Tests`. -/
structure LabTest where
  Name : Option String := none
  Value : Option String := none
  Unit : Option String := none
  Reference_Range : Option String := none
deriving DecidableEq

/-- The Lab Report input schema. -/
structure LabReportData where
  PII : PiiData := {}
  Lab_Tests : List LabTest := []
deriving DecidableEq

/-- The Discharge Summary input schema. -/
structure DischargeSummaryData where
  PII : PiiData := {}
  Diagnosis : List String := []
  Outcome : Option String := none
  Instructions : List String := []
deriving DecidableEq

/-- The Admission Slip input schema. -/
structure AdmissionSlipData where
  PII : PiiData := {}
  Admission_Reason : Option String := none
  Doctor : Option String := none
  Department : Option String := none
deriving DecidableEq

/-- The Condition resources of a disease list: one per nonempty string, in
order, with the shared date. -/
def condEntries (api : Api) (gen : Nat → String) (pid : String)
    (diseases : List String) (date : Option String) : List Resource :=
  ((diseases.filter (fun d => d ≠ "")).enum).map fun ip =>
    Resource.condition (build_condition (gen ip.1) api pid ip.2 date)

/-- The dosage padding of `MedicalReportMapper.map_to_fhir`:
`while len(dosages) < len(medications): dosages.append(None)`. -/
def padDosages (medications dosages : List String) : List (Option String) :=
  dosages.map some ++ List.replicate (medications.length - dosages.length) none

/-- The MedicationStatement resources of the parallel medication / dosage
lists: dosages padded, the lists zipped, empty medication strings skipped. -/
def medEntries (api : Api) (gen : Nat → String) (pid : String)
    (medications dosages : List String) : List Resource :=
  (((medications.zip (padDosages medications dosages)).filter
      (fun p => p.1 ≠ "")).enum).map fun ip =>
    Resource.medicationStatement
      (build_medication_statement (gen ip.1) api pid ip.2.1 ip.2.2)

/-- The Procedure resources of a procedure list: one per nonempty string. -/
def procEntries (gen : Nat → String) (pid : String)
    (procedures : List String) (date : Option String) : List Resource :=
  ((procedures.filter (fun p => p ≠ "")).enum).map fun ip =>
    Resource.procedureRec (build_procedure (gen ip.1) pid ip.2 date)

/-- `MedicalReportMapper.map_to_fhir` (up to serialization): Patient, then
Conditions, MedicationStatements and Procedures, assembled into a
transaction bundle. -/
def mapMedicalReport (icd rx : Api) (fresh : String) (gen : Nat → String)
    (data : MedicalReportData) : BundleR :=
  let patient := build_patient fresh data.PII
  let report_date := data.PII.Date
  build_bundle
    (Resource.patient patient ::
      (condEntries icd gen patient.id data.Disease_disorder report_date ++
       medEntries rx gen patient.id data.Medication data.Dosage ++
       procEntries gen patient.id data.Procedure report_date))

/-- `LabReportMapper.map_to_fhir` (up to serialization): Patient, then one
Observation per lab test with a truthy name. -/
def mapLabReport (loinc : Api) (fresh now : String) (gen : Nat → String)
    (data : LabReportData) : BundleR :=
  let patient := build_patient fresh data.PII
  let test_date := data.PII.Date
  let selected := data.Lab_Tests.filter (fun t => (pyTruthy t.Name).isSome)
  build_bundle
    (Resource.patient patient ::
      selected.enum.map (fun it =>
        Resource.observation
          (build_observation (gen it.1) loinc patient.id
            ((pyTruthy it.2.Name).getD "") it.2.Value it.2.Unit
            it.2.Reference_Range test_date now)))

/-- `DischargeSummaryMapper.map_to_fhir` (up to serialization): Patient,
Conditions from the diagnosis list, then exactly one Encounter. -/
def mapDischargeSummary (icd : Api) (fresh : String) (gen : Nat → String)
    (data : DischargeSummaryData) : BundleR :=
  let patient := build_patient fresh data.PII
  let discharge_date := data.PII.Discharge_Date
  let conds := condEntries icd gen patient.id data.Diagnosis discharge_date
  let instructions : Option (List String) :=
    if data.Instructions ≠ [] then some data.Instructions else none
  let enc := build_encounter (gen conds.length) icd patient.id
    data.PII.Admission_Date discharge_date none none data.Outcome instructions
  build_bundle (Resource.patient patient :: (conds ++ [Resource.encounter enc]))

/-- `AdmissionSlipMapper.map_to_fhir` (up to serialization): Patient and
exactly one Encounter (the Doctor field is deliberately dropped). -/
def mapAdmissionSlip (icd : Api) (fresh : String) (gen : Nat → String)
    (data : AdmissionSlipData) : BundleR :=
  let patient := build_patient fresh data.PII
  let enc := build_encounter (gen 0) icd patient.id data.PII.Date none
    data.Admission_Reason data.Department none none
  build_bundle [Resource.patient patient, Resource.encounter enc]

/-- The bundle invariant of the spec: transaction envelope, entry 0 a
Patient, every later entry referencing entry 0 through its identifier. -/
def bundleSubjectInv (b : BundleR) : Prop :=
  b.type = "transaction" ∧
  ∃ p rest, b.entry.map (fun e => e.resource) = Resource.patient p :: rest ∧
    ∀ r ∈ rest, r.subjectRef = some ("Patient/" ++ p.id)

/-! ## Stub search services used in concrete statements -/

/-- ICD-10 stub matching only the exact term `Glucose`. -/
def icdGlucoseApi : Api := fun t =>
  if t = "Glucose" then some ("R73.9", "Hyperglycemia, unspecified") else none

/-- LOINC stub matching only the exact term `Glucose`. -/
def loincGlucoseApi : Api := fun t =>
  if t = "Glucose" then some ("2345-7", "Glucose SerPl-mCnc") else none

/-- ICD-10 stub matching only the exact term `Fever`. -/
def feverApi : Api := fun t =>
  if t = "Fever" then some ("R50.9", "Fever, unspecified") else none

/-- ICD-10 stub matching only the exact term `Bronchitis`. -/
def bronchitisApi : Api := fun t =>
  if t = "Bronchitis" then some ("J40", "Bronchitis") else none

/-- ICD-10 stub matching only the exact two-character term `ab`. -/
def abApi : Api := fun t =>
  if t = "ab" then some ("A00", "Short token disease") else none

/-- The diagnosis cascade as claim C7 words it, for comparison with
`get_condition_code`: step 3 searches the longest word and skips only when
it equals the word actually tried in step 2 (the claim states no length
guard on the longest word). -/
def get_condition_code_claim (api : Api) (text : String) : Concept :=
  let clean_text := pyStrip text
  match searchIcd10 api clean_text with
  | some r => r
  | none =>
    let words := pySplitWs clean_text
    let tried2 : Option String :=
      if words.length > 1 && (lastWordD words).length > 2 then
        some (lastWordD words)
      else none
    let step2 : Option Concept :=
      match tried2 with
      | some w => searchIcd10 api w
      | none => none
    match step2 with
    | some r => r
    | none =>
      let step3 : Option Concept :=
        if words.length > 1 && tried2 ≠ some (pyMaxLen words) then
          searchIcd10 api (pyMaxLen words)
        else none
      match step3 with
      | some r => r
      | none => { text := clean_text }

/-! ## Helper lemmas -/

/-- The bundle assembler preserves the resource sequence exactly. -/
theorem build_bundle_resources (rs : List Resource) :
    (build_bundle rs).entry.map (fun e => e.resource) = rs := by
  induction rs with
  | nil => rfl
  | cons r rs ih => simpa [build_bundle] using congrArg (List.cons r) ih

/-- The cascade of `get_condition_code`, phrased through the named step
functions (definitional). -/
theorem gcc_cascade (api : Api) (text : String) :
    get_condition_code api text =
      match searchIcd10 api (pyStrip text) with
      | some r => r
      | none =>
        match condStep2 api text with
        | some r => r
        | none =>
          match condStep3 api text with
          | some r => r
          | none => { coding := none, text := pyStrip text } := rfl

/-- A successful `_search_icd10` call returns a concept whose text is the
term that was searched. -/
theorem searchIcd10_text (api : Api) (t : String) (c : Concept)
    (h : searchIcd10 api t = some c) : c.text = t := by
  unfold searchIcd10 at h
  cases ha : api t with
  | none => rw [ha] at h; cases h
  | some p => rw [ha] at h; cases h; rfl

/-- A step-2 success searched the last word, so carries it as text. -/
theorem condStep2_text (api : Api) (text : String) (c : Concept)
    (h : condStep2 api text = some c) :
    c.text = lastWordD (pySplitWs (pyStrip text)) := by
  unfold condStep2 at h
  split at h
  · split at h
    · exact searchIcd10_text _ _ _ h
    · cases h
  · cases h

/-- A step-3 success searched the longest word, so carries it as text. -/
theorem condStep3_text (api : Api) (text : String) (c : Concept)
    (h : condStep3 api text = some c) :
    c.text = pyMaxLen (pySplitWs (pyStrip text)) := by
  unfold condStep3 at h
  split at h
  · split at h
    · exact searchIcd10_text _ _ _ h
    · cases h
  · cases h

/-- Every Condition of a disease list references the patient. -/
theorem condEntries_subjectRef (api : Api) (gen : Nat → String) (pid : String)
    (diseases : List String) (date : Option String) :
    ∀ r ∈ condEntries api gen pid diseases date,
      r.subjectRef = some ("Patient/" ++ pid) := by
  intro r hr
  simp only [condEntries, List.mem_map] at hr
  obtain ⟨ip, _, rfl⟩ := hr
  rfl

/-- Every MedicationStatement of the medication list references the
patient. -/
theorem medEntries_subjectRef (api : Api) (gen : Nat → String) (pid : String)
    (medications dosages : List String) :
    ∀ r ∈ medEntries api gen pid medications dosages,
      r.subjectRef = some ("Patient/" ++ pid) := by
  intro r hr
  simp only [medEntries, List.mem_map] at hr
  obtain ⟨ip, _, rfl⟩ := hr
  rfl

/-- Every Procedure of the procedure list references the patient. -/
theorem procEntries_subjectRef (gen : Nat → String) (pid : String)
    (procedures : List String) (date : Option String) :
    ∀ r ∈ procEntries gen pid procedures date,
      r.subjectRef = some ("Patient/" ++ pid) := by
  intro r hr
  simp only [procEntries, List.mem_map] at hr
  obtain ⟨ip, _, rfl⟩ := hr
  rfl

/-- An Observation always references the patient, whichever way its value
was classified. -/
theorem build_observation_subject (rid : String) (api : Api) (pid : String)
    (test_name : String) (value unit rr date : Option String) (now : String) :
    (build_observation rid api pid test_name value unit rr date now).subject =
      "Patient/" ++ pid := by
  cases value with
  | none => rfl
  | some v =>
    unfold build_observation
    cases hf : pyFloatable v <;> simp [hf]

/-- A bundle built from a patient followed by patient-referencing resources
satisfies the subject invariant. -/
theorem bundleSubjectInv_of (p : PatientR) (rest : List Resource)
    (h : ∀ r ∈ rest, r.subjectRef = some ("Patient/" ++ p.id)) :
    bundleSubjectInv (build_bundle (Resource.patient p :: rest)) :=
  ⟨rfl, p, rest, build_bundle_resources _, h⟩

/-! ## Claim theorems -/

/-- C1: the three resolver functions share one `terminology_cache` whose
key is the bare argument tuple, so the cache is NOT keyed by
`(system, term)`: after `get_condition_code("Glucose")` has filled the
cache with an ICD-10 concept, `get_loinc_code("Glucose")` returns that
ICD-10 concept unchanged (leaving the cache untouched and never consulting
the LOINC search), although an uncached LOINC lookup of the same term
yields a different, LOINC-coded concept. -/
theorem c1_cache_cross_system_collision :
    (get_loinc_code_cached loincGlucoseApi
        (get_condition_code_cached icdGlucoseApi [] "Glucose").2 "Glucose").1 =
      (get_condition_code_cached icdGlucoseApi [] "Glucose").1 ∧
    (get_loinc_code_cached loincGlucoseApi
        (get_condition_code_cached icdGlucoseApi [] "Glucose").2 "Glucose").2 =
      (get_condition_code_cached icdGlucoseApi [] "Glucose").2 ∧
    (get_condition_code_cached icdGlucoseApi [] "Glucose").1 =
      { coding := some [⟨icd10Sys, "R73.9", "Hyperglycemia, unspecified"⟩],
        text := "Glucose" } ∧
    get_loinc_code loincGlucoseApi "Glucose" =
      { coding := some [⟨loincSys, "2345-7", "Glucose SerPl-mCnc"⟩],
        text := "Glucose" } ∧
    get_loinc_code loincGlucoseApi "Glucose" ≠
      (get_condition_code_cached icdGlucoseApi [] "Glucose").1 := by
  decide

/-- C2: a supplied identifier is only passed through
`str(...).replace('_', '-')`; a character outside `[A-Za-z0-9\-.]` such as
`#` survives, so the Subject id placed on output can violate the FHIR id
pattern the code comments promise. -/
theorem c2_sanitization_gap :
    (build_patient "f3b9c2d4-unused" { ID := some "bed#7" }).id = "bed#7" ∧
    fhirIdOk "bed#7" = false ∧
    sanitizeId "bed#7" = "bed#7" := by
  decide

/-- C4 counterexample: `"abcd-ef-ghij"` matches none of the recognized
date formats (`firstParse` of its cleaned form fails), yet
`normalize_date` does not return absent: the dash-position pre-check
passes it through truncated to 10 characters. -/
theorem c4_counterexample :
    normalize_date "abcd-ef-ghij" = some "abcd-ef-gh" ∧
    firstParse (cleanDate ("abcd-ef-ghij".data)) = none := by
  decide

/-- C4 amended: for every nonempty input that fails the ISO-shape
pre-check (length at least 10 with dashes at indices 4 and 7) and matches
none of the recognized formats, `normalize_date` returns absent — in
particular every placeholder-marker (`TKN`) input of that kind; inputs
passing the shape pre-check are instead passed through truncated. -/
theorem c4_amended (s : String) (h1 : isoShape s.data = false)
    (h2 : firstParse (cleanDate s.data) = none) :
    normalize_date s = none := by
  by_cases he : s.data = []
  · simp [normalize_date, he]
  · simp [normalize_date, he, h1, h2]

/-- C4 amended, witnessed at the placeholder input `"TKN_12345"`. -/
theorem c4_amended_witness :
    isoShape ("TKN_12345".data) = false ∧
    firstParse (cleanDate ("TKN_12345".data)) = none ∧
    normalize_date "TKN_12345" = none :=
  ⟨by decide, by decide, c4_amended "TKN_12345" (by decide) (by decide)⟩

/-- C5: the formats are attempted in the documented order and the first
success wins, so a cleaned string that the `DD/MM/YYYY` format parses (the
ISO fast path and the `YYYY-MM-DD` format having failed) is rendered from
that parse, regardless of the later `MM/DD/YYYY` format; and the three
documented examples hold, with `03/04/2025` demonstrating the DD/MM
precedence (April 3rd, not March 4th). -/
theorem c5_format_order (s : String) (d : SimpleDate)
    (h0 : s.data ≠ [])
    (h1 : isoShape s.data = false)
    (h2 : fmtYmdDash (cleanDate s.data) = none)
    (h3 : fmtDmySlash (cleanDate s.data) = some d) :
    normalize_date s = some (renderIso d) ∧
    normalize_date "2025-12-15" = some "2025-12-15" ∧
    normalize_date "15/12/2025" = some "2025-12-15" ∧
    normalize_date "not a date" = none ∧
    normalize_date "03/04/2025" = some "2025-04-03" := by
  refine ⟨?_, by decide, by decide, by decide, by decide⟩
  have hfp : firstParse (cleanDate s.data) = some d := by
    simp [firstParse, formatsToTry, List.findSome?_cons, h2, h3]
  simp [normalize_date, h0, h1, hfp]

/-- C5, witnessed at the ambiguous date `"03/04/2025"`. -/
theorem c5_format_order_witness :
    normalize_date "03/04/2025" = some (renderIso ⟨2025, 4, 3⟩) :=
  (c5_format_order "03/04/2025" ⟨2025, 4, 3⟩ (by decide) (by decide)
    (by decide) (by decide)).1

/-- C6 counterexample: an absent gender field yields a Subject with no
gender at all, not `"unknown"`. -/
theorem c6_counterexample :
    buildGender (pyOrStr none none) = none ∧
    buildGender (pyOrStr none none) ≠ some "unknown" := by
  decide

/-- C6 amended: for a nonempty gender string the synonym sets map
(case-insensitively, after trimming) to male / female / other, anything
else nonempty maps to unknown; an absent or empty gender field produces no
gender value at all. -/
theorem c6_amended (s : String) (h : s ≠ "") :
    (pyStrip (strLower s) ∈ (["m", "male", "man"] : List String) →
      buildGender (some s) = some "male") ∧
    (pyStrip (strLower s) ∈ (["f", "female", "woman"] : List String) →
      buildGender (some s) = some "female") ∧
    (pyStrip (strLower s) ∈ (["o", "other"] : List String) →
      buildGender (some s) = some "other") ∧
    (pyStrip (strLower s) ∉
        (["m", "male", "man", "f", "female", "woman", "o", "other"] :
          List String) →
      buildGender (some s) = some "unknown") ∧
    buildGender none = none ∧
    buildGender (some "") = none := by
  refine ⟨?_, ?_, ?_, ?_, rfl, by decide⟩
  · intro hm
    simp only [List.mem_cons, List.not_mem_nil, or_false] at hm
    rcases hm with hm | hm | hm <;> simp [buildGender, h, hm]
  · intro hm
    simp only [List.mem_cons, List.not_mem_nil, or_false] at hm
    rcases hm with hm | hm | hm <;> simp [buildGender, h, hm]
  · intro hm
    simp only [List.mem_cons, List.not_mem_nil, or_false] at hm
    rcases hm with hm | hm <;> simp [buildGender, h, hm]
  · intro hm
    simp only [List.mem_cons, List.not_mem_nil, or_false, not_or] at hm
    obtain ⟨n1, n2, n3, n4, n5, n6, n7, n8⟩ := hm
    simp [buildGender, h, n1, n2, n3, n4, n5, n6, n7, n8]

/-- C6 amended, witnessed at `"M"` (synonym) and at the absent field. -/
theorem c6_amended_witness :
    buildGender (some "M") = some "male" ∧ buildGender none = none :=
  ⟨(c6_amended "M" (by decide)).1 (by decide),
   (c6_amended "M" (by decide)).2.2.2.2.1⟩

/-- C9: the factory maps exactly the four supported type strings to their
mapper variants and fails every other selector with a `ValueError` whose
message names the unsupported type and the supported ones — there is no
default mapper. -/
theorem c9_factory (s : String)
    (h1 : s ≠ "Medical Report") (h2 : s ≠ "Lab Report")
    (h3 : s ≠ "Discharge Summary") (h4 : s ≠ "Admission Slip") :
    get_document_mapper s =
      Except.error ("Unsupported document type: " ++ s ++
        ". Supported types: Medical Report, Lab Report, Discharge Summary, Admission Slip") ∧
    get_document_mapper "Medical Report" = Except.ok MapperKind.medicalReport ∧
    get_document_mapper "Lab Report" = Except.ok MapperKind.labReport ∧
    get_document_mapper "Discharge Summary" = Except.ok MapperKind.dischargeSummary ∧
    get_document_mapper "Admission Slip" = Except.ok MapperKind.admissionSlip := by
  refine ⟨?_, rfl, rfl, rfl, rfl⟩
  simp [get_document_mapper, mappersLookup, h1, h2, h3, h4]

/-- C9, witnessed at the unsupported selector `"Prescription"`. -/
theorem c9_factory_witness :
    get_document_mapper "Prescription" =
      Except.error ("Unsupported document type: Prescription" ++
        ". Supported types: Medical Report, Lab Report, Discharge Summary, Admission Slip") :=
  (c9_factory "Prescription" (by decide) (by decide) (by decide) (by decide)).1

/-- C3: every mapped document of the four types yields a transaction
envelope whose entry 0 is the Subject and whose every later entry carries
a subject reference resolving to entry 0's identifier; and the assembler
keeps the mapper's resource order exactly. -/
theorem c3_bundle_invariant (icd rx loinc : Api) (fresh now : String)
    (gen : Nat → String) (mr : MedicalReportData) (lab : LabReportData)
    (ds : DischargeSummaryData) (asl : AdmissionSlipData) (rs : List Resource) :
    bundleSubjectInv (mapMedicalReport icd rx fresh gen mr) ∧
    bundleSubjectInv (mapLabReport loinc fresh now gen lab) ∧
    bundleSubjectInv (mapDischargeSummary icd fresh gen ds) ∧
    bundleSubjectInv (mapAdmissionSlip icd fresh gen asl) ∧
    (build_bundle rs).type = "transaction" ∧
    (build_bundle rs).entry.map (fun e => e.resource) = rs := by
  refine ⟨?_, ?_, ?_, ?_, rfl, build_bundle_resources rs⟩
  · unfold mapMedicalReport
    apply bundleSubjectInv_of
    intro r hr
    rcases List.mem_append.mp hr with h | h
    · rcases List.mem_append.mp h with h | h
      · exact condEntries_subjectRef _ _ _ _ _ r h
      · exact medEntries_subjectRef _ _ _ _ _ r h
    · exact procEntries_subjectRef _ _ _ _ r h
  · unfold mapLabReport
    apply bundleSubjectInv_of
    intro r hr
    simp only [List.mem_map] at hr
    obtain ⟨it, _, rfl⟩ := hr
    simp only [Resource.subjectRef, build_observation_subject]
  · unfold mapDischargeSummary
    apply bundleSubjectInv_of
    intro r hr
    rcases List.mem_append.mp hr with h | h
    · exact condEntries_subjectRef _ _ _ _ _ r h
    · rcases List.mem_singleton.mp h with rfl
      rfl
  · unfold mapAdmissionSlip
    apply bundleSubjectInv_of
    intro r hr
    rcases List.mem_singleton.mp hr with rfl
    rfl

/-- C3, witnessed on concrete empty documents with a failing stub search. -/
theorem c3_bundle_invariant_witness :
    bundleSubjectInv (mapMedicalReport (fun _ => none) (fun _ => none) "P1"
      (fun _ => "rid") {}) ∧
    bundleSubjectInv (mapLabReport (fun _ => none) "P1" "2025-01-01"
      (fun _ => "rid") {}) ∧
    bundleSubjectInv (mapDischargeSummary (fun _ => none) "P1"
      (fun _ => "rid") {}) ∧
    bundleSubjectInv (mapAdmissionSlip (fun _ => none) "P1"
      (fun _ => "rid") {}) :=
  let h := c3_bundle_invariant (fun _ => none) (fun _ => none) (fun _ => none)
    "P1" "2025-01-01" (fun _ => "rid") {} {} {} {} []
  ⟨h.1, h.2.1, h.2.2.1, h.2.2.2.1⟩

/-- C7 counterexample: for the two-word term `"ab cd"` (all words of at
most 2 characters) with a stub service matching only `"ab"`, the code
skips strategy 3 because of its length guard and falls back to the
text-only concept, while the claim's wording (skip only when the longest
word equals the word tried in step 2 — no word was tried) demands the
longest word be searched and its match used. -/
theorem c7_counterexample :
    get_condition_code abApi "ab cd" = { coding := none, text := "ab cd" } ∧
    get_condition_code_claim abApi "ab cd" =
      { coding := some [⟨icd10Sys, "A00", "Short token disease"⟩], text := "ab" } ∧
    get_condition_code abApi "ab cd" ≠ get_condition_code_claim abApi "ab cd" := by
  decide

/-- C7 amended: the cascade tries, in order, the full trimmed term; for a
multi-word term the last word when longer than 2 characters; then the
longest word when longer than 2 characters AND different from the last
word; the first successful search wins, and if all strategies fail the
result is the text-only concept with the trimmed term. -/
theorem c7_amended (api : Api) (text : String) :
    (∀ r, searchIcd10 api (pyStrip text) = some r →
      get_condition_code api text = r) ∧
    (searchIcd10 api (pyStrip text) = none →
      ∀ r, condStep2 api text = some r → get_condition_code api text = r) ∧
    (searchIcd10 api (pyStrip text) = none → condStep2 api text = none →
      ∀ r, condStep3 api text = some r → get_condition_code api text = r) ∧
    (searchIcd10 api (pyStrip text) = none → condStep2 api text = none →
      condStep3 api text = none →
      get_condition_code api text = { coding := none, text := pyStrip text }) := by
  refine ⟨?_, ?_, ?_, ?_⟩
  · intro r h; rw [gcc_cascade, h]
  · intro h1 r h2; rw [gcc_cascade, h1, h2]
  · intro h1 h2 r h3; rw [gcc_cascade, h1, h2, h3]
  · intro h1 h2 h3; rw [gcc_cascade, h1, h2, h3]

/-- C7 amended, witnessed on the longest-word strategy for
`"Bronchitis ill"`. -/
theorem c7_amended_witness :
    get_condition_code bronchitisApi "Bronchitis ill" =
      { coding := some [⟨icd10Sys, "J40", "Bronchitis"⟩], text := "Bronchitis" } :=
  (c7_amended bronchitisApi "Bronchitis ill").2.2.1 (by decide) (by decide)
    { coding := some [⟨icd10Sys, "J40", "Bronchitis"⟩], text := "Bronchitis" }
    (by decide)

/-- C10: when the full-term search fails and a sub-word strategy succeeds,
the text of the returned concept is the sub-word actually searched (the
last word for strategy 2, the longest word for strategy 3), not the
original trimmed term. -/
theorem c10_subword_text (api : Api) (text : String) :
    (searchIcd10 api (pyStrip text) = none →
      ∀ c, condStep2 api text = some c →
        (get_condition_code api text).text =
          lastWordD (pySplitWs (pyStrip text))) ∧
    (searchIcd10 api (pyStrip text) = none → condStep2 api text = none →
      ∀ c, condStep3 api text = some c →
        (get_condition_code api text).text =
          pyMaxLen (pySplitWs (pyStrip text))) := by
  constructor
  · intro h1 c h2
    have he : get_condition_code api text = c := by rw [gcc_cascade, h1, h2]
    rw [he]
    exact condStep2_text api text c h2
  · intro h1 h2 c h3
    have he : get_condition_code api text = c := by rw [gcc_cascade, h1, h2, h3]
    rw [he]
    exact condStep3_text api text c h3

/-- C10, witnessed on `"High Fever"` (last word) and `"Bronchitis ill"`
(longest word). -/
theorem c10_subword_text_witness :
    (get_condition_code feverApi "High Fever").text = "Fever" ∧
    (get_condition_code bronchitisApi "Bronchitis ill").text = "Bronchitis" :=
  ⟨((c10_subword_text feverApi "High Fever").1 (by decide)
      { coding := some [⟨icd10Sys, "R50.9", "Fever, unspecified"⟩], text := "Fever" }
      (by decide)).trans (by decide),
   ((c10_subword_text bronchitisApi "Bronchitis ill").2 (by decide) (by decide)
      { coding := some [⟨icd10Sys, "J40", "Bronchitis"⟩], text := "Bronchitis" }
      (by decide)).trans (by decide)⟩

/-- Filtering a zip on a predicate over the first component keeps as many
pairs as the filtered first list, when the second list is long enough. -/
theorem zip_filter_fst_length {α β : Type} (p : α → Bool) :
    ∀ (l1 : List α) (l2 : List β), l1.length ≤ l2.length →
      ((l1.zip l2).filter (fun x => p x.1)).length = (l1.filter p).length := by
  intro l1
  induction l1 with
  | nil => intro l2 _; simp
  | cons a l1 ih =>
    intro l2 h
    cases l2 with
    | nil => simp at h
    | cons b l2 =>
      simp only [List.zip_cons_cons, List.filter_cons]
      cases hpa : p a <;> simp [ih l2 (Nat.le_of_succ_le_succ h)]

/-- The padded dosage list has exactly the medication count when the
dosage list was not longer. -/
theorem padDosages_length (m d : List String) (h : d.length ≤ m.length) :
    (padDosages m d).length = m.length := by
  simp only [padDosages, List.length_append, List.length_map,
    List.length_replicate]
  omega

/-- C8: with a dosage list strictly shorter than the medication list, the
mapper produces one MedicationStatement per nonempty medication (never an
index error, never a dropped medication); and when every medication is
nonempty the dosages line up positionally, the missing trailing ones
absent. -/
theorem c8_dosage_padding (rx : Api) (gen : Nat → String) (pid : String)
    (medications dosages : List String)
    (h : dosages.length < medications.length) :
    (medEntries rx gen pid medications dosages).length =
      (medications.filter (fun m => m ≠ "")).length ∧
    ((∀ m ∈ medications, m ≠ "") →
      (medEntries rx gen pid medications dosages).map
          (fun r =>
            match r with
            | .medicationStatement ms => ms.dosage
            | _ => none) =
        dosages.map (fun dd => if dd ≠ "" then some dd else none) ++
        List.replicate (medications.length - dosages.length) none) := by
  have hpl : (padDosages medications dosages).length = medications.length :=
    padDosages_length medications dosages (Nat.le_of_lt h)
  constructor
  · simp only [medEntries, List.length_map, List.enum_length]
    exact zip_filter_fst_length (fun m => m ≠ "") medications
      (padDosages medications dosages) (le_of_eq hpl.symm)
  · intro hall
    have hfilter :
        (medications.zip (padDosages medications dosages)).filter
            (fun p => p.1 ≠ "") =
          medications.zip (padDosages medications dosages) := by
      apply List.filter_eq_self.mpr
      intro p hp
      simpa using hall p.1 (List.of_mem_zip hp).1
    simp only [medEntries, hfilter, List.map_map]
    have hcomp :
        ((fun r =>
            match r with
            | Resource.medicationStatement ms => ms.dosage
            | _ => none) ∘
          fun (ip : Nat × (String × Option String)) =>
            Resource.medicationStatement
              (build_medication_statement (gen ip.1) rx pid ip.2.1 ip.2.2)) =
          fun ip => pyTruthy ip.2.2 := rfl
    rw [hcomp]
    have h2 : (fun (ip : Nat × (String × Option String)) => pyTruthy ip.2.2) =
        (fun (pr : String × Option String) => pyTruthy pr.2) ∘ Prod.snd := rfl
    rw [h2, ← List.map_map, List.enum_map_snd]
    have hsnd :
        (medications.zip (padDosages medications dosages)).map
            (fun pr => pyTruthy pr.2) =
          (padDosages medications dosages).map pyTruthy := by
      have h1 : (fun (pr : String × Option String) => pyTruthy pr.2) =
          pyTruthy ∘ Prod.snd := rfl
      rw [h1, ← List.map_map,
        List.map_snd_zip medications (padDosages medications dosages)
          (le_of_eq hpl)]
    rw [hsnd]
    simp only [padDosages, List.map_append, List.map_map, List.map_replicate]
    rfl

/-- C8, witnessed on the documented example: two medications, one dosage. -/
theorem c8_dosage_padding_witness :
    ((["500mg twice daily"] : List String).length <
      (["Metformin", "Lisinopril"] : List String).length) ∧
    (medEntries (fun _ => none) (fun _ => "rid") "P1"
      ["Metformin", "Lisinopril"] ["500mg twice daily"]).length = 2 ∧
    (medEntries (fun _ => none) (fun _ => "rid") "P1"
        ["Metformin", "Lisinopril"] ["500mg twice daily"]).map
        (fun r =>
          match r with
          | .medicationStatement ms => ms.dosage
          | _ => none) =
      [some "500mg twice daily", none] := by
  have h := c8_dosage_padding (fun _ => none) (fun _ => "rid") "P1"
    ["Metformin", "Lisinopril"] ["500mg twice daily"] (by decide)
  exact ⟨by decide, h.1.trans (by decide), (h.2 (by decide)).trans (by decide)⟩

end Harmon
